import Mathlib

/-!
# RazDroid HWComposer: a shallow embedding of `hwcomposer.cpp`

The per-frame entry points `hwc_prepare` and `hwc_set`, the helpers they call
and the hardware calls they issue are embedded as Lean functions.

* C `int` values are `Int`; every arithmetic result is reduced to the signed
  32-bit range by `wrap32`, and `&` and `~` act on the 32-bit pattern.
* The layer list pointer is an `Option`: `none` is `NULL`.
* The three hardware calls (`eglSwapBuffers`, `vc_dispmanx_resource_create`,
  `vc_dispmanx_resource_write_data`) are answered by a `Hardware` record of
  functions of the call history; every call is appended to `State.trace`.
* `malloc` of the scratch `hwc_layer_rd` and the `LOGD` lines are not
  observable here and are left out.
-/

namespace HWComposer

/-! ## Constants of the platform headers -/

/-- Modelled from the spec: the pixel format the spec calls RGBA8888; the number is the
one of the Android header `system/graphics.h`, which is not among the sources. -/
def HAL_PIXEL_FORMAT_RGBA_8888 : Nat := 1

/-- Modelled from the spec: the pixel format the spec calls RGBX8888; the number is the
one of the Android header `system/graphics.h`, which is not among the sources. -/
def HAL_PIXEL_FORMAT_RGBX_8888 : Nat := 2

/-- Modelled from the spec: the pixel format the spec calls RGB565; the number is the
one of the Android header `system/graphics.h`, which is not among the sources. -/
def HAL_PIXEL_FORMAT_RGB_565 : Nat := 4

/-- Modelled from the spec: the composition tag FRAMEBUFFER; the number is the one of
the Android header `hardware/hwcomposer.h`, which is not among the sources. -/
def HWC_FRAMEBUFFER : Int := 0

/-- Modelled from the spec: the composition tag OVERLAY; the number is the one of
the Android header `hardware/hwcomposer.h`, which is not among the sources. -/
def HWC_OVERLAY : Int := 1

/-- Modelled from the spec: the geometry-changed bit of the list flags; the number is
the one of the Android header `hardware/hwcomposer.h`, which is not among the sources. -/
def HWC_GEOMETRY_CHANGED : Nat := 1

/-- Modelled from the spec: the hardware-swap error code; the number is the one of
the Android header `hardware/hwcomposer.h`, which is not among the sources. -/
def HWC_EGL_ERROR : Int := -1

/-- Modelled from the spec: the native image-type enumeration of the hardware engine,
declared in the VideoCore header `vc_image_types.h`, which is not among the sources.
Only the three enumerators the source names are listed. -/
inductive VC_IMAGE_TYPE_T where
  | VC_IMAGE_RGB565
  | VC_IMAGE_RGBX8888
  | VC_IMAGE_RGBA32
  deriving DecidableEq, Repr

open VC_IMAGE_TYPE_T

/-! ## Data model -/

/-- The rectangle `hwc_rect_t`: four C `int` fields. -/
structure hwc_rect_t where
  left : Int
  top : Int
  right : Int
  bottom : Int
  deriving DecidableEq, Repr

/-- The buffer a layer refers to (`buffer_handle_t`): its address and the pixel
format of the pixels it holds. The source only ever passes the handle on. -/
structure buffer_handle_t where
  addr : Nat
  format : Nat
  deriving DecidableEq, Repr

/-- The layer descriptor `hwc_layer_t`, with the fields the source reads or writes. -/
structure hwc_layer_t where
  compositionType : Int
  flags : Nat
  handle : buffer_handle_t
  transform : Nat
  blending : Int
  sourceCrop : hwc_rect_t
  displayFrame : hwc_rect_t
  deriving DecidableEq, Repr

/-- The layer list `hwc_layer_list_t`; `numHwLayers` is the length of `hwLayers`. -/
structure hwc_layer_list_t where
  flags : Nat
  hwLayers : List hwc_layer_t
  deriving DecidableEq, Repr

/-- The scratch record `struct hwc_layer_rd`: a layer and the format attributed to it. -/
structure hwc_layer_rd where
  layer : hwc_layer_t
  format : Nat
  deriving DecidableEq, Repr

/-- The rectangle `VC_RECT_T` of the hardware interface. -/
structure VC_RECT_T where
  x : Int
  y : Int
  width : Int
  height : Int
  deriving DecidableEq, Repr

/-- The fields of the global `gRectVars` that the source assigns. -/
structure RECT_VARS_T where
  resource : Nat
  vc_image_ptr : Nat
  deriving DecidableEq, Repr

/-- One call made to the hardware, with the arguments the source passes. -/
inductive Event where
  | eglSwapBuffers (dpy sur : Nat)
  | vc_dispmanx_resource_create (type : VC_IMAGE_TYPE_T) (width height : Int)
  | vc_dispmanx_resource_write_data (resource : Nat) (type : VC_IMAGE_TYPE_T)
      (pitch : Int) (src : buffer_handle_t) (rect : VC_RECT_T)
  deriving DecidableEq, Repr

/-- The answers of the hardware. Each answer is a function of the calls made so
far, the call being answered included as the last one. -/
structure Hardware where
  eglSwapBuffers : List Event → Bool
  vc_dispmanx_resource_create : List Event → Nat × Nat
  vc_dispmanx_resource_write_data : List Event → Int

/-- The mutable state: the global `gRectVars` and the calls made so far, oldest first. -/
structure State where
  gRectVars : RECT_VARS_T
  trace : List Event
  deriving DecidableEq, Repr

/-! ## Arithmetic -/

/-- Reduction of an integer to the range of a 32-bit C `int`. -/
def wrap32 (x : Int) : Int := (x + 2147483648) % 4294967296 - 2147483648

/-- The bit pattern of a 32-bit C `int`, as a number below `2^32`. -/
def bits32 (x : Int) : Nat := (x % 4294967296).toNat

/-- The operator `~` on a 32-bit C `int`. -/
def not32 (x : Int) : Int := wrap32 (-x - 1)

/-- The operator `&` on two 32-bit C `int`s: the conjunction of the bit patterns. -/
def and32 (x y : Int) : Int := wrap32 ((bits32 x &&& bits32 y : Nat))

/-- The definition `#define ALIGN_UP(x,y)  ((x + (y)-1) & ~((y)-1))`. -/
def ALIGN_UP (x y : Int) : Int := and32 (wrap32 (x + y - 1)) (not32 (wrap32 (y - 1)))

/-! ## Functions of `hwcomposer.cpp` -/

/-- The function `hwc_get_rd_layer`: the format is set to RGB565 whatever the layer is. -/
def hwc_get_rd_layer (src : hwc_layer_t) : hwc_layer_rd :=
  { layer := src, format := HAL_PIXEL_FORMAT_RGB_565 }

/-- The function `hwc_can_render_layer`. -/
def hwc_can_render_layer (layer : hwc_layer_rd) : Bool :=
  if layer.format = HAL_PIXEL_FORMAT_RGB_565 then true
  else if layer.format = HAL_PIXEL_FORMAT_RGBX_8888 then true
  else if layer.format = HAL_PIXEL_FORMAT_RGBA_8888 then true
  else false

/-- The function `hwc_format_to_vc_format`. -/
def hwc_format_to_vc_format (layer : hwc_layer_rd) : VC_IMAGE_TYPE_T :=
  if layer.format = HAL_PIXEL_FORMAT_RGB_565 then VC_IMAGE_RGB565
  else if layer.format = HAL_PIXEL_FORMAT_RGBX_8888 then VC_IMAGE_RGBX8888
  else if layer.format = HAL_PIXEL_FORMAT_RGBA_8888 then VC_IMAGE_RGBA32
  else VC_IMAGE_RGB565

/-- The helper `vc_dispmanx_rect_set` of the hardware interface: it fills a rectangle. -/
def vc_dispmanx_rect_set (x y width height : Int) : VC_RECT_T :=
  { x := x, y := y, width := width, height := height }

/-- The function `hwc_actually_do_stuff_with_layer`: one resource creation and one
write; a failed write returns before the placement rectangle is computed. -/
def hwc_actually_do_stuff_with_layer (hw : Hardware) (_dev : Nat) (layer : hwc_layer_t)
    (st : State) : State :=
  let lr := hwc_get_rd_layer layer
  let type := hwc_format_to_vc_format lr
  let dfwidth := wrap32 (layer.displayFrame.left - layer.displayFrame.right)
  let dfheight := wrap32 (layer.displayFrame.top - layer.displayFrame.bottom)
  let srcwidth := wrap32 (layer.sourceCrop.left - layer.sourceCrop.right)
  let srcheight := wrap32 (layer.sourceCrop.top - layer.sourceCrop.bottom)
  let dfpitch := ALIGN_UP (wrap32 (dfwidth * 2)) 32
  let t1 := st.trace ++ [Event.vc_dispmanx_resource_create type dfwidth dfheight]
  let created := hw.vc_dispmanx_resource_create t1
  let vars : RECT_VARS_T := { resource := created.1, vc_image_ptr := created.2 }
  let dst_rect := vc_dispmanx_rect_set 0 0 srcwidth srcheight
  let t2 := t1 ++ [Event.vc_dispmanx_resource_write_data vars.resource type dfpitch
    layer.handle dst_rect]
  let ret := hw.vc_dispmanx_resource_write_data t2
  if ret ≠ 0 then
    { gRectVars := vars, trace := t2 }
  else
    let _dst_rect := vc_dispmanx_rect_set layer.displayFrame.left layer.displayFrame.top
      (wrap32 (layer.displayFrame.left + dfwidth)) (wrap32 (layer.displayFrame.top + dfheight))
    { gRectVars := vars, trace := t2 }

/-- The function `hwc_do_stuff_with_layer`. -/
def hwc_do_stuff_with_layer (hw : Hardware) (dev : Nat) (layer : hwc_layer_t)
    (st : State) : State :=
  if layer.compositionType = HWC_OVERLAY then
    hwc_actually_do_stuff_with_layer hw dev layer st
  else st

/-- The body of the loop of `hwc_prepare` for one layer. -/
def prepare_layer (l : hwc_layer_t) : hwc_layer_t :=
  let lr := hwc_get_rd_layer l
  if hwc_can_render_layer lr then
    { l with compositionType := HWC_OVERLAY }
  else
    { l with compositionType := HWC_FRAMEBUFFER }

/-- The function `hwc_prepare`: the return value and the list as it is left. -/
def hwc_prepare (_dev : Nat) (list : Option hwc_layer_list_t) :
    Int × Option hwc_layer_list_t :=
  match list with
  | none => (0, none)
  | some l =>
    if l.flags &&& HWC_GEOMETRY_CHANGED ≠ 0 then
      (0, some { l with hwLayers := l.hwLayers.map prepare_layer })
    else
      (0, some l)

/-- The function `hwc_set`: the return value and the state after the call. -/
def hwc_set (hw : Hardware) (dev : Nat) (dpy sur : Nat) (list : Option hwc_layer_list_t)
    (st : State) : Int × State :=
  match list with
  | none =>
    if dpy ≠ 0 ∧ sur ≠ 0 then
      let t := st.trace ++ [Event.eglSwapBuffers dpy sur]
      ((if hw.eglSwapBuffers t then 0 else HWC_EGL_ERROR), { st with trace := t })
    else
      (0, st)
  | some l =>
    let t := st.trace ++ [Event.eglSwapBuffers dpy sur]
    let success := hw.eglSwapBuffers t
    let st1 : State := { st with trace := t }
    if !success then
      (HWC_EGL_ERROR, st1)
    else
      (0, l.hwLayers.foldl (fun s layer => hwc_do_stuff_with_layer hw dev layer s) st1)

/-! ## Sample inputs -/

/-- A layer of the given buffer format and rectangles, tagged FRAMEBUFFER. -/
def mkLayer (addr fmt : Nat) (crop frame : hwc_rect_t) : hwc_layer_t :=
  { compositionType := HWC_FRAMEBUFFER, flags := 0, handle := { addr := addr, format := fmt },
    transform := 0, blending := 0, sourceCrop := crop, displayFrame := frame }

/-- The rectangle with corners (0,0) and (100,50). -/
def rect100x50 : hwc_rect_t := { left := 0, top := 0, right := 100, bottom := 50 }

/-- Hardware on which every call succeeds. -/
def hwOk : Hardware :=
  { eglSwapBuffers := fun _ => true
    vc_dispmanx_resource_create := fun t => (t.length, 0)
    vc_dispmanx_resource_write_data := fun _ => 0 }

/-- Hardware on which the swap succeeds and every write fails. -/
def hwWriteFails : Hardware :=
  { eglSwapBuffers := fun _ => true
    vc_dispmanx_resource_create := fun t => (t.length, 0)
    vc_dispmanx_resource_write_data := fun _ => -1 }

/-- Hardware on which the swap fails. -/
def hwSwapFails : Hardware :=
  { eglSwapBuffers := fun _ => false
    vc_dispmanx_resource_create := fun t => (t.length, 0)
    vc_dispmanx_resource_write_data := fun _ => 0 }

/-- The state before the first frame. -/
def st0 : State := { gRectVars := { resource := 0, vc_image_ptr := 0 }, trace := [] }

/-- Three layers whose buffers hold RGB565, an unknown format (0) and RGBA8888. -/
def threeLayers : List hwc_layer_t :=
  [mkLayer 10 HAL_PIXEL_FORMAT_RGB_565 rect100x50 rect100x50,
   mkLayer 20 0 rect100x50 rect100x50,
   mkLayer 30 HAL_PIXEL_FORMAT_RGBA_8888 rect100x50 rect100x50]

/-- The same three layers tagged OVERLAY, FRAMEBUFFER, OVERLAY. -/
def taggedLayers : List hwc_layer_t :=
  [{ mkLayer 10 HAL_PIXEL_FORMAT_RGB_565 rect100x50 rect100x50 with compositionType := HWC_OVERLAY },
   mkLayer 20 0 rect100x50 rect100x50,
   { mkLayer 30 HAL_PIXEL_FORMAT_RGBA_8888 rect100x50 rect100x50 with
      compositionType := HWC_OVERLAY }]

/-! ## Views of the call history -/

/-- Whether a call is a buffer swap. -/
def Event.isSwap : Event → Bool
  | .eglSwapBuffers _ _ => true
  | _ => false

/-- Whether a call is a resource creation. -/
def Event.isCreate : Event → Bool
  | .vc_dispmanx_resource_create _ _ _ => true
  | _ => false

/-- The buffer a write call reads from, for a write call. -/
def Event.writeSrc : Event → Option buffer_handle_t
  | .vc_dispmanx_resource_write_data _ _ _ src _ => some src
  | _ => none

/-- The buffers handed to the hardware write, in call order. -/
def written (t : List Event) : List buffer_handle_t := t.filterMap Event.writeSrc

/-- The layers of a list that are tagged OVERLAY, in list order. -/
def overlays (ls : List hwc_layer_t) : List hwc_layer_t :=
  ls.filter (fun l => decide (l.compositionType = HWC_OVERLAY))

/-- The resource creation call the transfer routine issues for a layer. -/
def create_call (layer : hwc_layer_t) : Event :=
  Event.vc_dispmanx_resource_create VC_IMAGE_RGB565
    (wrap32 (layer.displayFrame.left - layer.displayFrame.right))
    (wrap32 (layer.displayFrame.top - layer.displayFrame.bottom))

/-- The write call the transfer routine issues for a layer into resource `res`. -/
def write_call (res : Nat) (layer : hwc_layer_t) : Event :=
  Event.vc_dispmanx_resource_write_data res VC_IMAGE_RGB565
    (ALIGN_UP (wrap32 (wrap32 (layer.displayFrame.left - layer.displayFrame.right) * 2)) 32)
    layer.handle
    { x := 0, y := 0,
      width := wrap32 (layer.sourceCrop.left - layer.sourceCrop.right),
      height := wrap32 (layer.sourceCrop.top - layer.sourceCrop.bottom) }

/-! ## Lemmas on the transfer routine and the loop of `hwc_set` -/

/-- The transfer routine appends one creation and one write, whatever the write returns. -/
theorem actually_eq (hw : Hardware) (dev : Nat) (layer : hwc_layer_t) (st : State) :
    hwc_actually_do_stuff_with_layer hw dev layer st =
      { gRectVars :=
          { resource := (hw.vc_dispmanx_resource_create (st.trace ++ [create_call layer])).1
            vc_image_ptr := (hw.vc_dispmanx_resource_create (st.trace ++ [create_call layer])).2 }
        trace := st.trace ++ [create_call layer,
          write_call (hw.vc_dispmanx_resource_create (st.trace ++ [create_call layer])).1 layer] } := by
  unfold hwc_actually_do_stuff_with_layer
  simp only [create_call, write_call, hwc_get_rd_layer, hwc_format_to_vc_format,
    vc_dispmanx_rect_set, if_true, List.append_assoc, List.singleton_append, ite_self]

/-- The loop of `hwc_set` runs the transfer routine on the OVERLAY layers only. -/
theorem foldl_do_stuff (hw : Hardware) (dev : Nat) (ls : List hwc_layer_t) (st : State) :
    ls.foldl (fun s layer => hwc_do_stuff_with_layer hw dev layer s) st =
      (overlays ls).foldl (fun s layer => hwc_actually_do_stuff_with_layer hw dev layer s) st := by
  induction ls generalizing st with
  | nil => rfl
  | cons l ls ih =>
    by_cases h : l.compositionType = HWC_OVERLAY
    · simp [overlays, List.filter_cons, h, hwc_do_stuff_with_layer] at ih ⊢
      exact ih _
    · simp [overlays, List.filter_cons, h, hwc_do_stuff_with_layer] at ih ⊢
      exact ih _

/-- Running the transfer routine over `ls` appends two calls per layer: no swap, and
the buffers written are those of `ls`, in order. -/
theorem foldl_actually_trace (hw : Hardware) (dev : Nat) (ls : List hwc_layer_t) (st : State) :
    ∃ rest, (ls.foldl (fun s layer => hwc_actually_do_stuff_with_layer hw dev layer s) st).trace =
        st.trace ++ rest ∧
      written rest = ls.map (fun l => l.handle) ∧
      rest.countP Event.isCreate = ls.length ∧
      rest.countP Event.isSwap = 0 ∧
      rest.length = 2 * ls.length := by
  induction ls generalizing st with
  | nil => exact ⟨[], by simp, rfl, rfl, rfl, rfl⟩
  | cons l ls ih =>
    obtain ⟨rest, h1, h2, h3, h4, h5⟩ := ih (hwc_actually_do_stuff_with_layer hw dev l st)
    refine ⟨[create_call l,
      write_call (hw.vc_dispmanx_resource_create (st.trace ++ [create_call l])).1 l] ++ rest,
      ?_, ?_, ?_, ?_, ?_⟩
    · rw [List.foldl_cons, h1, actually_eq]
      simp
    · simp [written, create_call, write_call, Event.writeSrc] at h2 ⊢
      exact h2
    · simp [create_call, write_call, Event.isCreate, List.countP_cons, h3]
    · simp [create_call, write_call, Event.isSwap, List.countP_cons, h4]
    · simp [h5]; omega

/-- The transfer routine does not depend on what the hardware write returns. -/
theorem actually_write_irrelevant (hw : Hardware) (w : List Event → Int) (dev : Nat)
    (layer : hwc_layer_t) (st : State) :
    hwc_actually_do_stuff_with_layer { hw with vc_dispmanx_resource_write_data := w } dev layer st =
      hwc_actually_do_stuff_with_layer hw dev layer st := by
  rw [actually_eq, actually_eq]

/-- The loop over the transfer routine does not depend on what the hardware write returns. -/
theorem foldl_write_irrelevant (hw : Hardware) (w : List Event → Int) (dev : Nat)
    (ls : List hwc_layer_t) (st : State) :
    ls.foldl (fun s layer => hwc_do_stuff_with_layer
        { hw with vc_dispmanx_resource_write_data := w } dev layer s) st =
      ls.foldl (fun s layer => hwc_do_stuff_with_layer hw dev layer s) st := by
  induction ls generalizing st with
  | nil => rfl
  | cons l ls ih =>
    simp only [List.foldl_cons]
    rw [ih]
    simp only [hwc_do_stuff_with_layer, actually_write_irrelevant]

/-! ## The claims -/

/-- C1, evaluated on the code: with the geometry-changed flag set, `hwc_prepare` tags the
three layers whose buffers hold RGB565, an unknown format and RGBA8888 as OVERLAY, OVERLAY,
OVERLAY, although `hwc_can_render_layer` rejects the unknown format of the second layer;
every layer is tagged OVERLAY by the loop body, whatever its buffer holds. -/
theorem hwc_prepare_tags_every_layer_overlay :
    (hwc_prepare 0 (some { flags := HWC_GEOMETRY_CHANGED, hwLayers := threeLayers })).2.map
        (fun l => l.hwLayers.map (fun x => x.compositionType)) =
      some [HWC_OVERLAY, HWC_OVERLAY, HWC_OVERLAY] ∧
    threeLayers.map (fun x => hwc_can_render_layer { layer := x, format := x.handle.format }) =
      [true, false, true] ∧
    ∀ l : hwc_layer_t, (prepare_layer l).compositionType = HWC_OVERLAY := by
  refine ⟨by decide, by decide, ?_⟩
  intro l
  simp [prepare_layer, hwc_get_rd_layer, hwc_can_render_layer]

/-- C2: for a null list, an empty list, or a list whose geometry-changed flag is clear,
`hwc_prepare` returns 0 and leaves the list exactly as it was, and so does a second call. -/
theorem hwc_prepare_noop (dev : Nat) (list : Option hwc_layer_list_t)
    (h : list = none ∨ ∃ l, list = some l ∧
      (l.hwLayers = [] ∨ l.flags &&& HWC_GEOMETRY_CHANGED = 0)) :
    hwc_prepare dev list = (0, list) ∧
    hwc_prepare dev (hwc_prepare dev list).2 = (0, list) := by
  have key : hwc_prepare dev list = (0, list) := by
    rcases h with h | ⟨l, h, hl | hf⟩
    · subst h; rfl
    · subst h
      obtain ⟨f, ls⟩ := l
      simp only at hl
      subst hl
      simp [hwc_prepare]
    · subst h
      simp [hwc_prepare, hf]
  exact ⟨key, by rw [key]; exact key⟩

/-- Witness of C2: a list of three layers tagged OVERLAY, FRAMEBUFFER, OVERLAY whose
flags are 0 keeps its tags. -/
theorem hwc_prepare_noop_witness :
    ((some { flags := 0, hwLayers := taggedLayers } : Option hwc_layer_list_t) = none ∨
      ∃ l : hwc_layer_list_t, some { flags := 0, hwLayers := taggedLayers } = some l ∧
        (l.hwLayers = [] ∨ l.flags &&& HWC_GEOMETRY_CHANGED = 0)) ∧
    hwc_prepare 7 (some { flags := 0, hwLayers := taggedLayers }) =
      (0, some { flags := 0, hwLayers := taggedLayers }) ∧
    hwc_prepare 7 (hwc_prepare 7 (some { flags := 0, hwLayers := taggedLayers })).2 =
      (0, some { flags := 0, hwLayers := taggedLayers }) :=
  ⟨Or.inr ⟨_, rfl, Or.inr (by decide)⟩,
    hwc_prepare_noop 7 (some { flags := 0, hwLayers := taggedLayers })
      (Or.inr ⟨_, rfl, Or.inr (by decide)⟩)⟩

/-- C3: for a non-null list and a successful swap, `hwc_set` returns 0, its first call is
the swap, and what follows is the transfer routine run on exactly the layers tagged OVERLAY,
once each and in list order: one creation and one write per OVERLAY layer, no further swap,
and the buffers written are the buffers of the OVERLAY layers in list order. -/
theorem hwc_set_transfers_overlays (hw : Hardware) (dev dpy sur : Nat) (l : hwc_layer_list_t)
    (st : State)
    (hswap : hw.eglSwapBuffers (st.trace ++ [Event.eglSwapBuffers dpy sur]) = true) :
    (hwc_set hw dev dpy sur (some l) st).1 = 0 ∧
    (hwc_set hw dev dpy sur (some l) st).2 =
      (overlays l.hwLayers).foldl
        (fun s layer => hwc_actually_do_stuff_with_layer hw dev layer s)
        { st with trace := st.trace ++ [Event.eglSwapBuffers dpy sur] } ∧
    ∃ rest, (hwc_set hw dev dpy sur (some l) st).2.trace =
        st.trace ++ Event.eglSwapBuffers dpy sur :: rest ∧
      written rest = (overlays l.hwLayers).map (fun x => x.handle) ∧
      rest.countP Event.isCreate = (overlays l.hwLayers).length ∧
      rest.countP Event.isSwap = 0 ∧
      rest.length = 2 * (overlays l.hwLayers).length := by
  have hst : (hwc_set hw dev dpy sur (some l) st).2 =
      (overlays l.hwLayers).foldl
        (fun s layer => hwc_actually_do_stuff_with_layer hw dev layer s)
        { st with trace := st.trace ++ [Event.eglSwapBuffers dpy sur] } := by
    simp [hwc_set, hswap, foldl_do_stuff]
  refine ⟨by simp [hwc_set, hswap], hst, ?_⟩
  obtain ⟨rest, h1, h2⟩ := foldl_actually_trace hw dev (overlays l.hwLayers)
    { st with trace := st.trace ++ [Event.eglSwapBuffers dpy sur] }
  refine ⟨rest, ?_, h2⟩
  rw [hst, h1]
  simp

/-- Witness of C3: on hardware where every call succeeds, the list tagged OVERLAY,
FRAMEBUFFER, OVERLAY gets a swap and then transfers for its first and third layer. -/
theorem hwc_set_transfers_overlays_witness :
    hwOk.eglSwapBuffers (st0.trace ++ [Event.eglSwapBuffers 1 1]) = true ∧
    (hwc_set hwOk 0 1 1 (some { flags := 0, hwLayers := taggedLayers }) st0).1 = 0 ∧
    ∃ rest, (hwc_set hwOk 0 1 1 (some { flags := 0, hwLayers := taggedLayers }) st0).2.trace =
        st0.trace ++ Event.eglSwapBuffers 1 1 :: rest ∧
      written rest = (overlays taggedLayers).map (fun x => x.handle) ∧
      rest.countP Event.isCreate = (overlays taggedLayers).length ∧
      rest.countP Event.isSwap = 0 ∧
      rest.length = 2 * (overlays taggedLayers).length :=
  ⟨rfl,
    (hwc_set_transfers_overlays hwOk 0 1 1 { flags := 0, hwLayers := taggedLayers } st0 rfl).1,
    (hwc_set_transfers_overlays hwOk 0 1 1 { flags := 0, hwLayers := taggedLayers } st0 rfl).2.2⟩

/-- C4: for a non-null list, when the swap fails `hwc_set` returns `HWC_EGL_ERROR` and the
swap is the only hardware call it makes: no resource is created and no buffer is written,
whatever the tags of the layers are. -/
theorem hwc_set_swap_failure (hw : Hardware) (dev dpy sur : Nat) (l : hwc_layer_list_t)
    (st : State)
    (hswap : hw.eglSwapBuffers (st.trace ++ [Event.eglSwapBuffers dpy sur]) = false) :
    (hwc_set hw dev dpy sur (some l) st).1 = HWC_EGL_ERROR ∧
    (hwc_set hw dev dpy sur (some l) st).2.trace =
      st.trace ++ [Event.eglSwapBuffers dpy sur] ∧
    (hwc_set hw dev dpy sur (some l) st).2.gRectVars = st.gRectVars := by
  simp [hwc_set, hswap]

/-- Witness of C4: on hardware whose swap fails, the list tagged OVERLAY, FRAMEBUFFER,
OVERLAY gets the swap call only. -/
theorem hwc_set_swap_failure_witness :
    hwSwapFails.eglSwapBuffers (st0.trace ++ [Event.eglSwapBuffers 1 1]) = false ∧
    (hwc_set hwSwapFails 0 1 1 (some { flags := 0, hwLayers := taggedLayers }) st0).1 =
      HWC_EGL_ERROR ∧
    (hwc_set hwSwapFails 0 1 1 (some { flags := 0, hwLayers := taggedLayers }) st0).2.trace =
      st0.trace ++ [Event.eglSwapBuffers 1 1] ∧
    (hwc_set hwSwapFails 0 1 1 (some { flags := 0, hwLayers := taggedLayers }) st0).2.gRectVars =
      st0.gRectVars :=
  ⟨rfl, hwc_set_swap_failure hwSwapFails 0 1 1 { flags := 0, hwLayers := taggedLayers } st0 rfl⟩

/-- C5: for a non-null list and a successful swap, whatever the hardware writes return,
`hwc_set` returns 0 and ends in the same state, with the same sequence of hardware calls,
as on hardware whose writes all succeed; the buffers written are those of all the OVERLAY
layers in list order, so a failed write stops no later transfer. -/
theorem hwc_set_failure_isolation (hw : Hardware) (dev dpy sur : Nat) (l : hwc_layer_list_t)
    (st : State)
    (hswap : hw.eglSwapBuffers (st.trace ++ [Event.eglSwapBuffers dpy sur]) = true) :
    (hwc_set hw dev dpy sur (some l) st).1 = 0 ∧
    (hwc_set hw dev dpy sur (some l) st).2 =
      (hwc_set { hw with vc_dispmanx_resource_write_data := fun _ => 0 } dev dpy sur
        (some l) st).2 ∧
    written ((hwc_set hw dev dpy sur (some l) st).2.trace.drop (st.trace.length + 1)) =
      (overlays l.hwLayers).map (fun x => x.handle) := by
  refine ⟨by simp [hwc_set, hswap], ?_, ?_⟩
  · simp only [hwc_set, hswap, Bool.not_true, Bool.false_eq_true, if_false]
    exact (foldl_write_irrelevant hw (fun _ => 0) dev l.hwLayers _).symm
  · have hst : (hwc_set hw dev dpy sur (some l) st).2 =
        (overlays l.hwLayers).foldl
          (fun s layer => hwc_actually_do_stuff_with_layer hw dev layer s)
          { st with trace := st.trace ++ [Event.eglSwapBuffers dpy sur] } := by
      simp [hwc_set, hswap, foldl_do_stuff]
    obtain ⟨rest, h1, h2, _⟩ := foldl_actually_trace hw dev (overlays l.hwLayers)
      { st with trace := st.trace ++ [Event.eglSwapBuffers dpy sur] }
    rw [hst, h1, ← h2]
    have hlen : (st.trace ++ [Event.eglSwapBuffers dpy sur]).length = st.trace.length + 1 := by
      simp
    rw [← hlen, List.drop_left]

/-- Witness of C5: on hardware whose writes all fail, the list tagged OVERLAY, FRAMEBUFFER,
OVERLAY still gets the writes of its first and of its third layer. -/
theorem hwc_set_failure_isolation_witness :
    hwWriteFails.eglSwapBuffers (st0.trace ++ [Event.eglSwapBuffers 1 1]) = true ∧
    (hwc_set hwWriteFails 0 1 1 (some { flags := 0, hwLayers := taggedLayers }) st0).1 = 0 ∧
    (hwc_set hwWriteFails 0 1 1 (some { flags := 0, hwLayers := taggedLayers }) st0).2 =
      (hwc_set { hwWriteFails with vc_dispmanx_resource_write_data := fun _ => 0 } 0 1 1
        (some { flags := 0, hwLayers := taggedLayers }) st0).2 ∧
    written ((hwc_set hwWriteFails 0 1 1 (some { flags := 0, hwLayers := taggedLayers })
        st0).2.trace.drop (st0.trace.length + 1)) =
      (overlays taggedLayers).map (fun x => x.handle) :=
  ⟨rfl,
    hwc_set_failure_isolation hwWriteFails 0 1 1 { flags := 0, hwLayers := taggedLayers } st0 rfl⟩

/-- C6: for a null list, when both handles are present `hwc_set` makes exactly one hardware
call, the swap, and returns 0 if it succeeds and `HWC_EGL_ERROR` if it fails; when either
handle is absent it makes no hardware call, changes nothing and returns 0. -/
theorem hwc_set_null_list (hw : Hardware) (dev dpy sur : Nat) (st : State) :
    (dpy ≠ 0 → sur ≠ 0 →
      (hwc_set hw dev dpy sur none st).1 =
        (if hw.eglSwapBuffers (st.trace ++ [Event.eglSwapBuffers dpy sur]) = true then 0
          else HWC_EGL_ERROR) ∧
      (hwc_set hw dev dpy sur none st).2.trace = st.trace ++ [Event.eglSwapBuffers dpy sur] ∧
      (hwc_set hw dev dpy sur none st).2.gRectVars = st.gRectVars) ∧
    (dpy = 0 ∨ sur = 0 → hwc_set hw dev dpy sur none st = (0, st)) := by
  constructor
  · intro hd hs
    simp [hwc_set, hd, hs]
  · intro h
    have : ¬ (dpy ≠ 0 ∧ sur ≠ 0) := by
      rcases h with h | h <;> simp [h]
    simp only [hwc_set, this, if_false]

/-- Witness of C6: with both handles present and a failing swap the result is
`HWC_EGL_ERROR` after one swap call; with a null display handle nothing happens. -/
theorem hwc_set_null_list_witness :
    ((1 : Nat) ≠ 0 ∧ (2 : Nat) ≠ 0 ∧
      (hwc_set hwSwapFails 0 1 2 none st0).1 =
        (if hwSwapFails.eglSwapBuffers (st0.trace ++ [Event.eglSwapBuffers 1 2]) = true then 0
          else HWC_EGL_ERROR) ∧
      (hwc_set hwSwapFails 0 1 2 none st0).2.trace =
        st0.trace ++ [Event.eglSwapBuffers 1 2] ∧
      (hwc_set hwSwapFails 0 1 2 none st0).2.gRectVars = st0.gRectVars) ∧
    (((0 : Nat) = 0 ∨ (2 : Nat) = 0) ∧ hwc_set hwOk 0 0 2 none st0 = (0, st0)) :=
  ⟨⟨by decide, by decide, (hwc_set_null_list hwSwapFails 0 1 2 st0).1 (by decide) (by decide)⟩,
    ⟨Or.inl rfl, (hwc_set_null_list hwOk 0 0 2 st0).2 (Or.inl rfl)⟩⟩

/-- C7: `hwc_can_render_layer` returns true exactly when the format of the record it is
given is RGB565, RGBX8888 or RGBA8888. -/
theorem hwc_can_render_layer_iff (lr : hwc_layer_rd) :
    hwc_can_render_layer lr = true ↔
      (lr.format = HAL_PIXEL_FORMAT_RGB_565 ∨ lr.format = HAL_PIXEL_FORMAT_RGBX_8888 ∨
        lr.format = HAL_PIXEL_FORMAT_RGBA_8888) := by
  unfold hwc_can_render_layer
  by_cases h1 : lr.format = HAL_PIXEL_FORMAT_RGB_565
  · simp [h1]
  · by_cases h2 : lr.format = HAL_PIXEL_FORMAT_RGBX_8888
    · simp [h2]
    · by_cases h3 : lr.format = HAL_PIXEL_FORMAT_RGBA_8888
      · simp [h3]
      · simp [h1, h2, h3]

/-- C8: `hwc_format_to_vc_format` is a total function that sends RGB565 to
`VC_IMAGE_RGB565`, RGBX8888 to `VC_IMAGE_RGBX8888`, RGBA8888 to `VC_IMAGE_RGBA32`, and
every record whose format is none of the three to `VC_IMAGE_RGB565`. -/
theorem hwc_format_to_vc_format_table :
    (∀ l, hwc_format_to_vc_format { layer := l, format := HAL_PIXEL_FORMAT_RGB_565 } =
      VC_IMAGE_RGB565) ∧
    (∀ l, hwc_format_to_vc_format { layer := l, format := HAL_PIXEL_FORMAT_RGBX_8888 } =
      VC_IMAGE_RGBX8888) ∧
    (∀ l, hwc_format_to_vc_format { layer := l, format := HAL_PIXEL_FORMAT_RGBA_8888 } =
      VC_IMAGE_RGBA32) ∧
    ∀ lr : hwc_layer_rd,
      lr.format = HAL_PIXEL_FORMAT_RGB_565 ∨ lr.format = HAL_PIXEL_FORMAT_RGBX_8888 ∨
        lr.format = HAL_PIXEL_FORMAT_RGBA_8888 ∨
        hwc_format_to_vc_format lr = VC_IMAGE_RGB565 := by
  refine ⟨fun _ => rfl, fun _ => rfl, fun _ => rfl, ?_⟩
  intro lr
  by_cases h1 : lr.format = HAL_PIXEL_FORMAT_RGB_565
  · exact Or.inl h1
  · by_cases h2 : lr.format = HAL_PIXEL_FORMAT_RGBX_8888
    · exact Or.inr (Or.inl h2)
    · by_cases h3 : lr.format = HAL_PIXEL_FORMAT_RGBA_8888
      · exact Or.inr (Or.inr (Or.inl h3))
      · right; right; right
        simp [hwc_format_to_vc_format, h1, h2, h3]

/-- C9, evaluated on the code: for an OVERLAY layer whose display frame is (0,0)-(100,50) and
whose source crop is (0,0)-(64,32), the transfer routine creates a resource of width -100 and
height -50 and writes through a rectangle of width -64 and height -32: each extent is
`left - right` or `top - bottom`, the negative of the magnitude. -/
theorem transfer_geometry_is_negated :
    (hwc_actually_do_stuff_with_layer hwOk 0
        { mkLayer 10 HAL_PIXEL_FORMAT_RGB_565
            { left := 0, top := 0, right := 64, bottom := 32 } rect100x50 with
          compositionType := HWC_OVERLAY } st0).trace =
      [Event.vc_dispmanx_resource_create VC_IMAGE_RGB565 (-100) (-50),
       Event.vc_dispmanx_resource_write_data 1 VC_IMAGE_RGB565 (-192)
         { addr := 10, format := HAL_PIXEL_FORMAT_RGB_565 }
         { x := 0, y := 0, width := -64, height := -32 }] := by
  decide

/-- C10, evaluated on the code: for an OVERLAY layer whose buffer holds RGBA8888 and whose
display frame is (0,0)-(100,50), the write is issued with image type `VC_IMAGE_RGB565` and
pitch -192, not the 416 of 100 pixels of 4 bytes; with the frame edges exchanged, so that the
computed width is 100, the pitch is 224: the width is always counted at 2 bytes a pixel. -/
theorem transfer_pitch_two_bytes_of_negated_width :
    (hwc_actually_do_stuff_with_layer hwOk 0
        { mkLayer 30 HAL_PIXEL_FORMAT_RGBA_8888 rect100x50 rect100x50 with
          compositionType := HWC_OVERLAY } st0).trace.getLast? =
      some (Event.vc_dispmanx_resource_write_data 1 VC_IMAGE_RGB565 (-192)
        { addr := 30, format := HAL_PIXEL_FORMAT_RGBA_8888 }
        { x := 0, y := 0, width := -100, height := -50 }) ∧
    (hwc_actually_do_stuff_with_layer hwOk 0
        { mkLayer 30 HAL_PIXEL_FORMAT_RGBA_8888 rect100x50
            { left := 100, top := 50, right := 0, bottom := 0 } with
          compositionType := HWC_OVERLAY } st0).trace.getLast? =
      some (Event.vc_dispmanx_resource_write_data 1 VC_IMAGE_RGB565 224
        { addr := 30, format := HAL_PIXEL_FORMAT_RGBA_8888 }
        { x := 0, y := 0, width := -100, height := -50 }) := by
  decide


end HWComposer
